import Mathlib

/-!
Verification of the SKM bead-pull measurement program (`vna.py`, `motor.py`,
`stoerkoerpermessung.py`) against its natural-language specification.

The serial channel is modelled as the finite list of bytes the instrument
sends (each byte a `Nat`).  A fixed-size transport read `read(n)` returns the
next `n` bytes, or fewer when the stream is exhausted (the timeout semantics
of the spec's SerialChannel interface: a timed-out read returns the partial
data the transport yielded).  Python exceptions are modelled with `Except`
over the error type `PyErr`; an 8-byte IEEE-754 double produced by
`struct.unpack` with format `<d` is represented by its 64-bit little-endian
bit pattern (`leWord64`), which determines the double uniquely.
-/

/-- Errors of the embedded program.  The first five model the Python
exceptions the source can actually raise; `malformedBlock` and
`truncatedBlock` are the spec's error taxonomy (section 7), included so that
statements about them can be expressed.  The source never produces them. -/
inductive PyErr where
  | structError
  | valueError
  | typeError
  | nameError
  | runtimeError
  | malformedBlock
  | truncatedBlock
deriving DecidableEq

/-- The 64-bit little-endian word formed by a byte list: byte 0 is least
significant.  This is the bit pattern of the IEEE-754 double that
`unpack` with little-endian 8-byte float format returns in `VNA.read_raw`
(`vna.py` line 173). -/
def leWord64 (bs : List Nat) : Nat :=
  bs.foldr (fun b acc => b + 256 * acc) 0

/-- Model of Python `int(bytes.decode())` on the ASCII strings the VNA
protocol sends: a nonempty run of decimal digit bytes parses to the declared
number, anything else raises `ValueError`. -/
def parseNat? (bs : List Nat) : Option Nat :=
  if bs ≠ [] ∧ ∀ b ∈ bs, 48 ≤ b ∧ b ≤ 57 then
    some (bs.foldl (fun acc b => 10 * acc + (b - 48)) 0)
  else
    none

/-- The payload loop of `VNA.read_raw` (`vna.py` lines 171-175): `k` times,
read 8 bytes and unpack a double, twice, and append the (real, imaginary)
pair.  `unpack` raises `struct.error` when the transport read returned
fewer than 8 bytes.  Returns the decoded pairs in stream order together
with the unconsumed remainder of the stream. -/
def readPairs : Nat → List Nat → Except PyErr (List (Nat × Nat) × List Nat)
  | 0, s => .ok ([], s)
  | Nat.succ k, s =>
    if (s.take 8).length = 8 then
      let re := leWord64 (s.take 8)
      let s1 := s.drop 8
      if (s1.take 8).length = 8 then
        let im := leWord64 (s1.take 8)
        match readPairs k (s1.drop 8) with
        | .ok (rest, s2) => .ok ((re, im) :: rest, s2)
        | .error e => .error e
      else .error .structError
    else .error .structError

/-- Specification-side description of the pairs decoded from a payload:
pair `i` is built from payload bytes `16*i .. 16*i+7` (real) and
`16*i+8 .. 16*i+15` (imaginary). -/
def pairsOfN : Nat → List Nat → List (Nat × Nat)
  | 0, _ => []
  | Nat.succ k, p =>
    (leWord64 (p.take 8), leWord64 ((p.drop 8).take 8)) :: pairsOfN k (p.drop 16)

/-- Model of `serial.readline()`: consume bytes up to and including the
first line feed (byte 10); when the stream ends first, everything read so
far is returned (timeout behaviour).  Returns (line, remainder). -/
def readLine : List Nat → List Nat × List Nat
  | [] => ([], [])
  | b :: s => if b = 10 then ([10], s) else ((b :: (readLine s).1), (readLine s).2)

/-- Embedding of `VNA.read_raw` (`vna.py` lines 154-180), applied to the
response byte stream (the two query commands it writes first are modelled
in the command traces below).  Read one byte; if it is not the marker
(35, ASCII number sign) return `none` without consuming anything further.
Otherwise read the one-byte length-of-length, then that many ASCII decimal
bytes as `data_length`, then decode `data_length / 16` (floor) pairs, and
finally discard one text line. -/
def read_raw (s : List Nat) : Except PyErr (Option (List (Nat × Nat)) × List Nat) :=
  match s with
  | [] => .ok (none, [])
  | b :: s1 =>
    if b = 35 then
      match parseNat? (s1.take 1) with
      | none => .error .valueError
      | some L =>
        match parseNat? ((s1.drop 1).take L) with
        | none => .error .valueError
        | some dataLength =>
          match readPairs (dataLength / 16) ((s1.drop 1).drop L) with
          | .error e => .error e
          | .ok (pairs, s3) => .ok (some pairs, (readLine s3).2)
    else .ok (none, s1)

/-- Python `math.atan2 y x`: the argument of the complex number `x + i*y`,
in the interval from negative pi (exclusive) to pi (inclusive). -/
noncomputable def atan2 (y x : ℝ) : ℝ :=
  Complex.arg (Complex.mk x y)

/-- Embedding of `VNA.read_amp_phase` (`vna.py` lines 182-187): call
`read_raw` on the response stream and convert each (real, imaginary) pair
to polar form.  `interp` is the IEEE-754 denotation of a 64-bit pattern as
a real number; it is left abstract because no claim depends on it.
Iterating over the `None` result of a marker-less response raises a
`TypeError` in Python; a decode exception propagates. -/
noncomputable def read_amp_phase (interp : Nat → ℝ) (s : List Nat) :
    Except PyErr (List (ℝ × ℝ) × List Nat) :=
  match read_raw s with
  | .error e => .error e
  | .ok (none, _) => .error .typeError
  | .ok (some l, rest) =>
    .ok (l.map (fun p =>
      (Real.sqrt (interp p.1 * interp p.1 + interp p.2 * interp p.2),
       atan2 (interp p.2) (interp p.1))), rest)

/-- Instrument-side state of the VNA read back by the query commands:
average count (`SENSE:AVERAGE:COUNT?`, an integer), sweep time in seconds
(`SENS:SWEEP:TIME?`), centre frequency, span and point count. -/
structure VNAState where
  avgCount : ℤ
  sweeptime : ℚ
  center : ℚ
  span : ℚ
  points : ℤ
deriving DecidableEq

/-- Observable actions of a VNA method: a command or query line written to
the serial channel, or a call to `time.sleep` for the given number of
seconds. -/
inductive VNAEvent where
  | cmd (s : String)
  | sleepFor (t : ℚ)
deriving DecidableEq

/-- Command written by `VNA.reset_avg` (`vna.py` lines 95-97). -/
def reset_avgCmds : List String := ["SENSE:AVERAGE:CLEAR"]

/-- Query written by `VNA.get_avg` (`vna.py` lines 89-93). -/
def get_avgQuery : String := "SENSE:AVERAGE:COUNT?"

/-- Query written by `VNA.get_sweeptime` (`vna.py` lines 131-136). -/
def get_sweeptimeQuery : String := "SENS:SWEEP:TIME?"

/-- Embedding of `VNA.measurecycles` (`vna.py` lines 125-129): reset the
running average, read the average count and the sweep time back from the
instrument, then sleep for sweeptime times (count plus one) seconds.  The
result is the ordered list of observable actions. -/
def measurecycles (st : VNAState) : List VNAEvent :=
  let e1 := reset_avgCmds.map VNAEvent.cmd
  let avg := st.avgCount
  let t := st.sweeptime
  e1 ++ [VNAEvent.cmd get_avgQuery, VNAEvent.cmd get_sweeptimeQuery,
         VNAEvent.sleepFor (t * ((avg : ℚ) + 1))]

/-- Names bound at module level in `vna.py`: the imports of lines 6-9 and
the two classes the module defines.  `strftime` is not among them. -/
def vnaModuleNames : List String :=
  ["Serial", "sleep", "asctime", "sqrt", "atan2", "unpack", "VNA", "Marker"]

/-- The Python builtins referenced anywhere in the repository; name lookup
falls back to these after the module globals.  `strftime` is not a
builtin. -/
def pyBuiltinNames : List String :=
  ["open", "print", "int", "float", "str", "list", "dict", "range", "zip",
   "bool", "format"]

/-- Name-resolution environment in effect inside `vna.py` function bodies. -/
def vnaEnv : List String := vnaModuleNames ++ pyBuiltinNames

/-- Python name lookup: a name not bound in the environment raises
`NameError`. -/
def evalName (env : List String) (n : String) : Except PyErr Unit :=
  if n ∈ env then .ok () else .error .nameError

/-- One line of the raw-curve output file written by `VNA.write_raw`. -/
inductive RawLine where
  | dateLine
  | centerLine (c : ℚ)
  | spanLine (s : ℚ)
  | pointsLine (n : ℤ)
  | headerLine
  | sampleRow (re im : Nat)
deriving DecidableEq

/-- Embedding of `VNA.write_raw` (`vna.py` lines 189-202) after the block
has been decoded into `raw`.  The first statement inside the `with` block
formats the date line by calling `strftime`, so that name is resolved
before anything is written; on a `NameError` the function aborts with no
line produced.  Were the name bound, the header lines and one sample row
per pair would follow. -/
def write_raw (st : VNAState) (raw : List (Nat × Nat)) :
    Except PyErr (List RawLine) :=
  match evalName vnaEnv "strftime" with
  | .error e => .error e
  | .ok _ =>
    .ok ([RawLine.dateLine, RawLine.centerLine st.center, RawLine.spanLine st.span,
          RawLine.pointsLine st.points, RawLine.headerLine]
         ++ raw.map (fun p => RawLine.sampleRow p.1 p.2))

/-- Observable actions of one iteration of the measurement loop:
`freqQuery p` is a full `get_freq_at p` exchange (move the motor to `p`,
wait, run the averaging cycle and search the resonance minimum);
`rawWriteRef p` and `rawWrite p` are the `write_raw` calls of the
resonance-curve mode, labelled by the target position used in the file
name. -/
inductive MeasEvent where
  | freqQuery (p : ℚ)
  | rawWriteRef (p : ℚ)
  | rawWrite (p : ℚ)
deriving DecidableEq

/-- One iteration of the measurement loop body
(`stoerkoerpermessung.py` lines 130-142), for resonance frequency `freqAt p`
at motor position `p`.  In checkmode the reference position is queried
first, then the target position; the emitted row is
position, target frequency, reference frequency, difference (four columns),
or position and frequency (two columns) otherwise.  The resonance-curve
mode additionally invokes `write_raw` after each frequency query (that call
itself fails at run time, see the `write_raw` theorems; here only its
occurrence in the trace is recorded). -/
def measureStep (checkmode rc : Bool) (freqAt : ℚ → ℚ) (ref pos : ℚ) :
    List MeasEvent × List ℚ :=
  if checkmode then
    ((MeasEvent.freqQuery ref :: (if rc then [MeasEvent.rawWriteRef pos] else []))
      ++ (MeasEvent.freqQuery pos :: (if rc then [MeasEvent.rawWrite pos] else [])),
     [pos, freqAt pos, freqAt ref, freqAt pos - freqAt ref])
  else
    (MeasEvent.freqQuery pos :: (if rc then [MeasEvent.rawWrite pos] else []),
     [pos, freqAt pos])

/-- The positions visited by the sweep loop of
`stoerkoerpermessung.py` lines 126-144: starting at `pos`, visit `pos` and
advance by `stepsize` while `stop - pos > -1E-6`.  Python's loop has no
iteration bound; `fuel` bounds the recursion and does not change the
result once it exceeds the number of iterations. -/
def sweepPositions (fuel : Nat) (stop stepsize pos : ℚ) : List ℚ :=
  match fuel with
  | 0 => []
  | Nat.succ f =>
    if stop - pos > -(1 / 1000000) then
      pos :: sweepPositions f stop stepsize (pos + stepsize)
    else []

/-- The sweep loop of `stoerkoerpermessung.py` lines 126-145: while
`stop - pos > -1E-6`, run one `measureStep` and advance `pos` by
`stepsize`.  Returns the concatenated event trace and the list of emitted
output rows. -/
def measureLoop (fuel : Nat) (checkmode rc : Bool) (freqAt : ℚ → ℚ)
    (ref stop stepsize pos : ℚ) : List MeasEvent × List (List ℚ) :=
  match fuel with
  | 0 => ([], [])
  | Nat.succ f =>
    if stop - pos > -(1 / 1000000) then
      let step := measureStep checkmode rc freqAt ref pos
      let rest := measureLoop f checkmode rc freqAt ref stop stepsize (pos + stepsize)
      (step.1 ++ rest.1, step.2 :: rest.2)
    else ([], [])

/-- The MEASUREMENT and hardware configuration read by
`Stoerkoerpermessung` from the ini file; `stepSize` and `steps` are
`some` exactly when the respective key is present. -/
structure Config where
  start : ℚ
  stop : ℚ
  infinite : Bool
  rcMode : Bool
  checkmode : Bool
  cmReference : ℚ
  stepSize : Option ℚ
  steps : Option ℤ
  motorName : String
  motorConfigLines : List String
  scaling : ℚ
  points : ℤ
  power : ℤ
  average : ℤ

/-- Bound normalisation of `stoerkoerpermessung.py` lines 88-89: inverted
bounds are silently swapped. -/
def normBounds (cfg : Config) : ℚ × ℚ :=
  if cfg.start > cfg.stop then (cfg.stop, cfg.start) else (cfg.start, cfg.stop)

/-- Step-size selection of `stoerkoerpermessung.py` lines 94-101: when both
or neither of StepSize and Steps are configured (the negated exclusive-or),
a `RuntimeError` is raised; an explicit StepSize is used as given; a step
count derives the size as the normalised span divided by the count. -/
def stepsizeChoice (cfg : Config) : Except PyErr ℚ :=
  match cfg.stepSize, cfg.steps with
  | some _, some _ => .error .runtimeError
  | none, none => .error .runtimeError
  | some ss, none => .ok ss
  | none, some n => .ok (((normBounds cfg).2 - (normBounds cfg).1) / (n : ℚ))

/-- A byte sequence written to one of the two serial channels: a motor
command line or a VNA command line. -/
inductive HwCmd where
  | motor (s : String)
  | vna (s : String)
deriving DecidableEq

/-- Python `int()` truncation toward zero of a rational. -/
def pyInt (q : ℚ) : ℤ := q.num / (q.den : ℤ)

/-- Point-count clamp of `VNA.set_points` (`vna.py` lines 99-105). -/
def clampPoints (p : ℤ) : ℤ := if p > 2001 then 2001 else if p < 3 then 3 else p

/-- Power clamp of `VNA.set_power` (`vna.py` lines 113-119). -/
def clampPower (p : ℤ) : ℤ := if p > 6 then 6 else if p < -17 then -17 else p

/-- Commands of `VNA.set_avg` (`vna.py` lines 77-87). -/
def setAvgCmds (avg : ℤ) : List String :=
  if avg > 1 then
    ["SENSE:AVERAGE:COUNT " ++ toString avg, "SENSE:AVERAGE:STATE ON",
     "SENSE:AVERAGE:CLEAR"]
  else
    ["SENSE:AVERAGE:COUNT 1", "SENSE:AVERAGE:STATE OFF", "SENSE:AVERAGE:CLEAR"]

/-- Hardware commands sent by `Stoerkoerpermessung.init_motor`
(`stoerkoerpermessung.py` lines 30-47): `Motor.load_motor_config` writes
every line of the motor configuration file, prefixed with the motor name,
to the motor serial channel. -/
def initMotorEvents (cfg : Config) : List HwCmd :=
  cfg.motorConfigLines.map (fun l => HwCmd.motor (cfg.motorName ++ l))

/-- Hardware commands sent by `Stoerkoerpermessung.init_vna`
(`stoerkoerpermessung.py` lines 49-68): the `VNA` constructor locks the
front panel (`@REM`, `vna.py` line 19), then point count, power and
averaging are configured and one `measurecycles` wait runs (its commands
are the `reset_avgCmds`, average-count and sweep-time queries). -/
def initVNAEvents (cfg : Config) : List HwCmd :=
  (["@REM",
    "SENSE:SWEEP:POINTS " ++ toString (clampPoints cfg.points),
    "SOURCE:POWER " ++ toString (clampPower cfg.power) ++ "dBm"]
   ++ setAvgCmds cfg.average
   ++ reset_avgCmds ++ [get_avgQuery, get_sweeptimeQuery]).map HwCmd.vna

/-- All hardware commands sent by the `Stoerkoerpermessung` constructor
(`stoerkoerpermessung.py` lines 19-28), which runs `init_motor` then
`init_vna` before `measure` is ever called. -/
def initEvents (cfg : Config) : List HwCmd :=
  initMotorEvents cfg ++ initVNAEvents cfg

/-- Hardware commands of one `get_freq_at` call
(`stoerkoerpermessung.py` lines 152-163): absolute move (`MA`, converted
to microsteps by the scaling factor, `motor.py` lines 69-75), the
motion poll (`PR MV`; polled repeatedly in reality, the poll count depends
on the physical motion and is modelled as one query), the `measurecycles`
commands and the marker-1 minimum search with its two position read-backs
(`vna.py` lines 211-215 and 240-247). -/
def getFreqAtCmds (cfg : Config) (pos : ℚ) : List HwCmd :=
  [HwCmd.motor (cfg.motorName ++ "MA " ++ toString (pyInt (pos / cfg.scaling))),
   HwCmd.motor (cfg.motorName ++ "PR MV"),
   HwCmd.vna "SENSE:AVERAGE:CLEAR", HwCmd.vna get_avgQuery,
   HwCmd.vna get_sweeptimeQuery,
   HwCmd.vna "CALC:MARK1:MIN", HwCmd.vna "CALC:MARK1:SEARCH",
   HwCmd.vna "CALC:MARK1:X?", HwCmd.vna "CALC:MARK1:Y?"]

/-- Commands a `write_raw` call manages to send before its
`read_raw` returns and the date-line formatting fails
(`vna.py` lines 154-157 and 189-194): the data-format selection and the
trace query. -/
def rawWriteCmds : List HwCmd :=
  [HwCmd.vna "FORMAT:DATA REAL,64", HwCmd.vna "TRAC? CH1DATA"]

/-- Hardware commands of one measurement-loop event. -/
def measEventCmds (cfg : Config) : MeasEvent → List HwCmd
  | .freqQuery p => getFreqAtCmds cfg p
  | .rawWriteRef _ => rawWriteCmds
  | .rawWrite _ => rawWriteCmds

/-- Embedding of `Stoerkoerpermessung.measure`
(`stoerkoerpermessung.py` lines 70-150), restricted to the hardware
commands it writes: the step-size check runs first, before any command of
`measure` itself is sent; on success the output-file header queries
(centre, span, points) are sent and the sweep loop runs (one cycle; the
infinite mode repeats it), followed by the return move to the start
position. -/
def measureEvents (cfg : Config) (fuel : Nat) (freqAt : ℚ → ℚ) :
    List HwCmd × Except PyErr Unit :=
  match stepsizeChoice cfg with
  | .error e => ([], .error e)
  | .ok ss =>
    ([HwCmd.vna "SENSE:FREQ:CENTER?", HwCmd.vna "SENSE:FREQ:SPAN?",
      HwCmd.vna "SENSE:SWEEP:POINTS?"]
     ++ (measureLoop fuel cfg.checkmode cfg.rcMode freqAt cfg.cmReference
          (normBounds cfg).2 ss (normBounds cfg).1).1.flatMap (measEventCmds cfg)
     ++ [HwCmd.motor (cfg.motorName ++ "MA "
          ++ toString (pyInt ((normBounds cfg).1 / cfg.scaling)))],
     .ok ())

/-- A whole program run (`stoerkoerpermessung.py` lines 165-176): the
constructor sends the initialisation commands, then `measure` runs. -/
def programRun (cfg : Config) (fuel : Nat) (freqAt : ℚ → ℚ) :
    List HwCmd × Except PyErr Unit :=
  let m := measureEvents cfg fuel freqAt
  (initEvents cfg ++ m.1, m.2)

/-- Concrete configuration of the spec's sweep scenario: start 0, stop 10,
step count 5, no explicit step size. -/
def sweepCfgC4 : Config :=
  { start := 0, stop := 10, infinite := false, rcMode := false,
    checkmode := false, cmReference := 0, stepSize := none, steps := some 5,
    motorName := "D", motorConfigLines := [], scaling := 1,
    points := 201, power := 0, average := 3 }

/-- Concrete configuration supplying both StepSize and Steps. -/
def cfgBothSteps : Config :=
  { start := 0, stop := 10, infinite := false, rcMode := false,
    checkmode := false, cmReference := 0, stepSize := some 1, steps := some 5,
    motorName := "D", motorConfigLines := [], scaling := 1,
    points := 201, power := 0, average := 3 }

/-- Concrete configuration supplying neither StepSize nor Steps. -/
def cfgNeitherSteps : Config :=
  { start := 0, stop := 10, infinite := false, rcMode := false,
    checkmode := false, cmReference := 0, stepSize := none, steps := none,
    motorName := "D", motorConfigLines := [], scaling := 1,
    points := 201, power := 0, average := 3 }

lemma pairsOfN_length (k : Nat) : ∀ p : List Nat, (pairsOfN k p).length = k := by
  induction k with
  | zero => intro p; simp [pairsOfN]
  | succ k ih => intro p; simp [pairsOfN, ih]

lemma pairsOfN_get (k : Nat) : ∀ (p : List Nat) (i : Nat), i < k →
    (pairsOfN k p)[i]? =
      some (leWord64 ((p.drop (16 * i)).take 8),
            leWord64 ((p.drop (16 * i + 8)).take 8)) := by
  induction k with
  | zero => intro p i h; omega
  | succ k ih =>
    intro p i h
    cases i with
    | zero => simp [pairsOfN]
    | succ i =>
      have hrec := ih (p.drop 16) i (by omega)
      simp only [pairsOfN, List.getElem?_cons_succ]
      rw [hrec, List.drop_drop, List.drop_drop]
      have e1 : List.drop (16 + 16 * i) p = List.drop (16 * (i + 1)) p := by
        congr 1; ring
      have e2 : List.drop (16 + (16 * i + 8)) p = List.drop (16 * (i + 1) + 8) p := by
        congr 1; ring
      rw [e1, e2]

lemma readPairs_le (k : Nat) : ∀ (p r : List Nat), 16 * k ≤ p.length →
    readPairs k (p ++ r) = .ok (pairsOfN k p, p.drop (16 * k) ++ r) := by
  induction k with
  | zero => intro p r _; simp [readPairs, pairsOfN]
  | succ k ih =>
    intro p r hp
    have h8 : 8 ≤ p.length := by omega
    have hd8 : 8 ≤ (p.drop 8).length := by simp [List.length_drop]; omega
    have ht1 : (p ++ r).take 8 = p.take 8 := List.take_append_of_le_length h8
    have hd1 : (p ++ r).drop 8 = p.drop 8 ++ r := List.drop_append_of_le_length h8
    have ht2 : ((p.drop 8) ++ r).take 8 = (p.drop 8).take 8 :=
      List.take_append_of_le_length hd8
    have hd2 : ((p.drop 8) ++ r).drop 8 = (p.drop 8).drop 8 ++ r :=
      List.drop_append_of_le_length hd8
    have hlen1 : (p.take 8).length = 8 := by simp [List.length_take]; omega
    have hlen2 : ((p.drop 8).take 8).length = 8 := by
      simp [List.length_take, List.length_drop]; omega
    have hdd : (p.drop 8).drop 8 = p.drop 16 := by rw [List.drop_drop]
    have hrec : 16 * k ≤ (p.drop 16).length := by simp [List.length_drop]; omega
    simp only [readPairs, ht1, hd1, ht2, hd2, hlen1, hlen2, hdd, if_pos]
    rw [ih _ r hrec]
    simp only [pairsOfN]
    rw [List.drop_drop]
    have e1 : List.drop (16 + 16 * k) p = List.drop (16 * (k + 1)) p := by
      congr 1; ring
    rw [e1]

lemma readPairs_short (k : Nat) : ∀ s : List Nat, s.length < 16 * k →
    readPairs k s = .error .structError := by
  induction k with
  | zero => intro s h; omega
  | succ k ih =>
    intro s h
    by_cases h1 : (s.take 8).length = 8
    · by_cases h2 : ((s.drop 8).take 8).length = 8
      · have h16 : 16 ≤ s.length := by
          simp [List.length_take, List.length_drop] at h1 h2; omega
        have hdd : (s.drop 8).drop 8 = s.drop 16 := by rw [List.drop_drop]
        have hr : (s.drop 16).length < 16 * k := by simp [List.length_drop]; omega
        simp only [readPairs, h1, h2, if_pos, hdd]
        rw [ih _ hr]
      · simp only [readPairs]
        rw [if_pos h1, if_neg h2]
    · simp only [readPairs]
      rw [if_neg h1]

lemma read_raw_not_marker (b : Nat) (s : List Nat) (h : b ≠ 35) :
    read_raw (b :: s) = .ok (none, s) := by
  simp [read_raw, h]

lemma read_raw_block (lb L n : Nat) (lenBytes payload rest : List Nat)
    (hlb : parseNat? [lb] = some L)
    (hlen : lenBytes.length = L)
    (hn : parseNat? lenBytes = some n)
    (hp : payload.length = n) :
    read_raw (35 :: lb :: (lenBytes ++ (payload ++ rest))) =
      .ok (some (pairsOfN (n / 16) payload),
           (readLine (payload.drop (16 * (n / 16)) ++ rest)).2) := by
  have htake : (lb :: (lenBytes ++ (payload ++ rest))).take 1 = [lb] := by simp
  have hdrop : (lb :: (lenBytes ++ (payload ++ rest))).drop 1 =
      lenBytes ++ (payload ++ rest) := by simp
  have hlenle : L ≤ lenBytes.length := le_of_eq hlen.symm
  have htakeL : (lenBytes ++ (payload ++ rest)).take L = lenBytes := by
    rw [List.take_append_of_le_length hlenle, ← hlen, List.take_length]
  have hdropL : (lenBytes ++ (payload ++ rest)).drop L = payload ++ rest := by
    rw [List.drop_append_of_le_length hlenle, ← hlen, List.drop_length]
    simp
  have hdiv : 16 * (n / 16) ≤ payload.length := by
    rw [hp]; exact Nat.mul_div_le n 16
  simp only [read_raw, if_pos rfl, htake, hdrop, hlb, htakeL, hn, hdropL]
  rw [readPairs_le (n / 16) payload rest hdiv]
  simp

lemma read_raw_block16 (lb L k : Nat) (lenBytes payload rest : List Nat)
    (hlb : parseNat? [lb] = some L)
    (hlen : lenBytes.length = L)
    (hn : parseNat? lenBytes = some (16 * k))
    (hp : payload.length = 16 * k) :
    read_raw (35 :: lb :: (lenBytes ++ (payload ++ rest))) =
      .ok (some (pairsOfN k payload), (readLine rest).2) := by
  have h := read_raw_block lb L (16 * k) lenBytes payload rest hlb hlen hn hp
  have hk : 16 * k / 16 = k := by omega
  rw [hk] at h
  have hdropnil : payload.drop (16 * k) = [] := by
    rw [← hp]; exact List.drop_length payload
  rw [hdropnil] at h
  simpa using h

lemma read_raw_short (lb L n : Nat) (lenBytes tail : List Nat)
    (hlb : parseNat? [lb] = some L)
    (hlen : lenBytes.length = L)
    (hn : parseNat? lenBytes = some n)
    (hshort : tail.length < 16 * (n / 16)) :
    read_raw (35 :: lb :: (lenBytes ++ tail)) = .error .structError := by
  have htake : (lb :: (lenBytes ++ tail)).take 1 = [lb] := by simp
  have hdrop : (lb :: (lenBytes ++ tail)).drop 1 = lenBytes ++ tail := by simp
  have hlenle : L ≤ lenBytes.length := le_of_eq hlen.symm
  have htakeL : (lenBytes ++ tail).take L = lenBytes := by
    rw [List.take_append_of_le_length hlenle, ← hlen, List.take_length]
  have hdropL : (lenBytes ++ tail).drop L = tail := by
    rw [List.drop_append_of_le_length hlenle, ← hlen, List.drop_length]
    simp
  simp only [read_raw, if_pos rfl, htake, hdrop, hlb, htakeL, hn, hdropL]
  rw [readPairs_short (n / 16) tail hshort]
  simp

lemma sweepPositions_step (f : Nat) (stop ss pos : ℚ)
    (h : stop - pos > -(1 / 1000000)) :
    sweepPositions (f + 1) stop ss pos = pos :: sweepPositions f stop ss (pos + ss) := by
  simp only [sweepPositions]
  rw [if_pos h]

lemma sweepPositions_stop (f : Nat) (stop ss pos : ℚ)
    (h : ¬ stop - pos > -(1 / 1000000)) :
    sweepPositions f stop ss pos = [] := by
  cases f with
  | zero => rfl
  | succ f =>
    simp only [sweepPositions]
    rw [if_neg h]

lemma measureLoop_eq (fuel : Nat) :
    ∀ (cm rc : Bool) (freqAt : ℚ → ℚ) (ref stop ss pos : ℚ),
    measureLoop fuel cm rc freqAt ref stop ss pos =
      ((sweepPositions fuel stop ss pos).flatMap
         (fun p => (measureStep cm rc freqAt ref p).1),
       (sweepPositions fuel stop ss pos).map
         (fun p => (measureStep cm rc freqAt ref p).2)) := by
  induction fuel with
  | zero => intros; simp [measureLoop, sweepPositions]
  | succ f ih =>
    intro cm rc freqAt ref stop ss pos
    by_cases h : stop - pos > -(1 / 1000000)
    · simp only [measureLoop, sweepPositions, if_pos h, ih]
      simp
    · simp only [measureLoop, sweepPositions, if_neg h]
      simp

lemma sweepPositions_concrete (m : Nat) :
    sweepPositions (m + 7) 10 2 0 = [0, 2, 4, 6, 8, 10] := by
  have h1 : sweepPositions (m + 7) 10 2 0 = 0 :: sweepPositions (m + 6) 10 2 2 := by
    rw [show m + 7 = (m + 6) + 1 from rfl, sweepPositions_step _ _ _ _ (by norm_num)]
    norm_num
  have h2 : sweepPositions (m + 6) 10 2 2 = 2 :: sweepPositions (m + 5) 10 2 4 := by
    rw [show m + 6 = (m + 5) + 1 from rfl, sweepPositions_step _ _ _ _ (by norm_num)]
    norm_num
  have h3 : sweepPositions (m + 5) 10 2 4 = 4 :: sweepPositions (m + 4) 10 2 6 := by
    rw [show m + 5 = (m + 4) + 1 from rfl, sweepPositions_step _ _ _ _ (by norm_num)]
    norm_num
  have h4 : sweepPositions (m + 4) 10 2 6 = 6 :: sweepPositions (m + 3) 10 2 8 := by
    rw [show m + 4 = (m + 3) + 1 from rfl, sweepPositions_step _ _ _ _ (by norm_num)]
    norm_num
  have h5 : sweepPositions (m + 3) 10 2 8 = 8 :: sweepPositions (m + 2) 10 2 10 := by
    rw [show m + 3 = (m + 2) + 1 from rfl, sweepPositions_step _ _ _ _ (by norm_num)]
    norm_num
  have h6 : sweepPositions (m + 2) 10 2 10 = 10 :: sweepPositions (m + 1) 10 2 12 := by
    rw [show m + 2 = (m + 1) + 1 from rfl, sweepPositions_step _ _ _ _ (by norm_num)]
    norm_num
  have h7 : sweepPositions (m + 1) 10 2 12 = [] :=
    sweepPositions_stop (m + 1) 10 2 12 (by norm_num)
  rw [h1, h2, h3, h4, h5, h6, h7]

/-- C1: for every payload whose declared dataLength is a positive multiple
of 16, decoding the binary block (after the marker, the one-digit
length-of-length and the ASCII decimal length field) returns exactly
dataLength/16 (real, imaginary) pairs, each pair formed from two
consecutive little-endian 8-byte doubles (represented by their 64-bit bit
patterns), in payload order. -/
theorem C1_block_decode (lb L k : Nat) (lenBytes payload rest : List Nat)
    (hlb : parseNat? [lb] = some L)
    (hlen : lenBytes.length = L)
    (hn : parseNat? lenBytes = some (16 * k))
    (hk : 0 < k)
    (hp : payload.length = 16 * k) :
    read_raw (35 :: lb :: (lenBytes ++ (payload ++ rest))) =
      .ok (some (pairsOfN k payload), (readLine rest).2)
    ∧ (pairsOfN k payload).length = k
    ∧ ∀ i, i < k →
        (pairsOfN k payload)[i]? =
          some (leWord64 ((payload.drop (16 * i)).take 8),
                leWord64 ((payload.drop (16 * i + 8)).take 8)) :=
  ⟨read_raw_block16 lb L k lenBytes payload rest hlb hlen hn hp,
   pairsOfN_length k payload,
   fun i hi => pairsOfN_get k payload i hi⟩

/-- C1 witness: a concrete block with declared length 16 decodes to one
pair, in payload order. -/
theorem C1_block_decode_witness :
    parseNat? [50] = some 2 ∧ ([49, 54] : List Nat).length = 2 ∧
    parseNat? [49, 54] = some (16 * 1) ∧ 0 < 1 ∧
    (List.replicate 16 7 : List Nat).length = 16 * 1 ∧
    (read_raw (35 :: 50 :: ([49, 54] ++ (List.replicate 16 7 ++ [10]))) =
        .ok (some (pairsOfN 1 (List.replicate 16 7)), (readLine [10]).2)
      ∧ (pairsOfN 1 (List.replicate 16 7)).length = 1
      ∧ ∀ i, i < 1 →
          (pairsOfN 1 (List.replicate 16 7))[i]? =
            some (leWord64 (((List.replicate 16 7 : List Nat).drop (16 * i)).take 8),
                  leWord64 (((List.replicate 16 7 : List Nat).drop (16 * i + 8)).take 8))) :=
  ⟨by decide, by decide, by decide, by decide, by decide,
   C1_block_decode 50 2 1 [49, 54] (List.replicate 16 7) [10]
     (by decide) (by decide) (by decide) (by decide) (by decide)⟩

/-- C2 counterexample: a block declaring dataLength 17 (not a multiple of
16) is decoded without any error to one sample pair; the code silently
truncates instead of failing with MalformedBlock. -/
theorem C2_counterexample :
    read_raw (35 :: 50 :: ([49, 55] ++ (List.replicate 17 0 ++ [10]))) =
      .ok (some [(0, 0)], [])
    ∧ read_raw (35 :: 50 :: ([49, 55] ++ (List.replicate 17 0 ++ [10]))) ≠
        .error .malformedBlock := by
  have e : read_raw (35 :: 50 :: ([49, 55] ++ (List.replicate 17 0 ++ [10]))) =
      .ok (some [(0, 0)], []) := rfl
  exact ⟨e, by rw [e]; exact fun h => nomatch h⟩

/-- C2 amended: for a declared dataLength that is not a multiple of 16 the
decoder does not fail; it silently returns floor(dataLength/16) pairs,
leaving the remainder bytes to be swallowed by the trailing readline.
(The theorem is stated for arbitrary declared length, which subsumes the
non-multiple case.) -/
theorem C2_silent_truncation (lb L n : Nat) (lenBytes payload rest : List Nat)
    (hlb : parseNat? [lb] = some L)
    (hlen : lenBytes.length = L)
    (hn : parseNat? lenBytes = some n)
    (hp : payload.length = n) :
    read_raw (35 :: lb :: (lenBytes ++ (payload ++ rest))) =
      .ok (some (pairsOfN (n / 16) payload),
           (readLine (payload.drop (16 * (n / 16)) ++ rest)).2)
    ∧ (pairsOfN (n / 16) payload).length = n / 16 :=
  ⟨read_raw_block lb L n lenBytes payload rest hlb hlen hn hp,
   pairsOfN_length (n / 16) payload⟩

/-- C2 amended witness: declared length 17 yields floor(17/16) = 1 pair and
no error. -/
theorem C2_silent_truncation_witness :
    parseNat? [50] = some 2 ∧ ([49, 55] : List Nat).length = 2 ∧
    parseNat? [49, 55] = some 17 ∧ (List.replicate 17 0 : List Nat).length = 17 ∧
    (read_raw (35 :: 50 :: ([49, 55] ++ (List.replicate 17 0 ++ [10]))) =
        .ok (some (pairsOfN (17 / 16) (List.replicate 17 0)),
             (readLine ((List.replicate 17 0 : List Nat).drop (16 * (17 / 16)) ++ [10])).2)
      ∧ (pairsOfN (17 / 16) (List.replicate 17 0)).length = 17 / 16) :=
  ⟨by decide, by decide, by decide, by decide,
   C2_silent_truncation 50 2 17 [49, 55] (List.replicate 17 0) [10]
     (by decide) (by decide) (by decide) (by decide)⟩

/-- C3 counterexample: a block declaring dataLength 32 whose stream ends
after 10 payload bytes fails with the untyped unpacking error
(struct.error), not with a typed TruncatedBlock. -/
theorem C3_counterexample :
    read_raw (35 :: 50 :: ([51, 50] ++ List.replicate 10 0)) = .error .structError
    ∧ read_raw (35 :: 50 :: ([51, 50] ++ List.replicate 10 0)) ≠
        .error .truncatedBlock := by
  have e : read_raw (35 :: 50 :: ([51, 50] ++ List.replicate 10 0)) =
      .error .structError := rfl
  exact ⟨e, by rw [e]; exact fun h => nomatch h⟩

/-- C3 amended: when the stream delivers fewer bytes than the decoder
attempts to read for the declared length, a fixed-size read comes back
short and the unpack step raises the untyped struct.error.  (On the
unmodified channel, which is opened without a read timeout, the read
blocks indefinitely instead; no typed TruncatedBlock error exists in the
code either way.) -/
theorem C3_short_stream_struct_error (lb L n : Nat) (lenBytes tail : List Nat)
    (hlb : parseNat? [lb] = some L)
    (hlen : lenBytes.length = L)
    (hn : parseNat? lenBytes = some n)
    (hshort : tail.length < 16 * (n / 16)) :
    read_raw (35 :: lb :: (lenBytes ++ tail)) = .error .structError :=
  read_raw_short lb L n lenBytes tail hlb hlen hn hshort

/-- C3 amended witness: declared length 32, only 10 bytes delivered. -/
theorem C3_short_stream_witness :
    parseNat? [50] = some 2 ∧ ([51, 50] : List Nat).length = 2 ∧
    parseNat? [51, 50] = some 32 ∧
    (List.replicate 10 0 : List Nat).length < 16 * (32 / 16) ∧
    read_raw (35 :: 50 :: ([51, 50] ++ List.replicate 10 0)) = .error .structError :=
  ⟨by decide, by decide, by decide, by decide,
   C3_short_stream_struct_error 50 2 32 [51, 50] (List.replicate 10 0)
     (by decide) (by decide) (by decide) (by decide)⟩

/-- C4: with start 0, stop 10 and step count 5 the derived step size is 2,
and the sweep loop (which terminates once stop minus position is at most
minus 1E-6 and advances by the step size) visits exactly the six positions
0, 2, 4, 6, 8, 10, the final boundary point included exactly once; this
holds for every recursion bound large enough to reach termination. -/
theorem C4_six_positions :
    stepsizeChoice sweepCfgC4 = .ok 2
    ∧ ∀ fuel, 7 ≤ fuel →
        sweepPositions fuel 10 2 0 = [0, 2, 4, 6, 8, 10]
        ∧ ∀ freqAt : ℚ → ℚ,
            (measureLoop fuel false false freqAt 0 10 2 0).1 =
              [MeasEvent.freqQuery 0, MeasEvent.freqQuery 2, MeasEvent.freqQuery 4,
               MeasEvent.freqQuery 6, MeasEvent.freqQuery 8, MeasEvent.freqQuery 10] := by
  constructor
  · norm_num [stepsizeChoice, sweepCfgC4, normBounds]
  · intro fuel hf
    obtain ⟨m, rfl⟩ : ∃ m, fuel = m + 7 := ⟨fuel - 7, by omega⟩
    refine ⟨sweepPositions_concrete m, ?_⟩
    intro freqAt
    rw [measureLoop_eq, sweepPositions_concrete m]
    simp [measureStep]

/-- C4 witness: the loop bound 7 already suffices. -/
theorem C4_six_positions_witness :
    stepsizeChoice sweepCfgC4 = .ok 2 ∧ (7 : Nat) ≤ 7 ∧
    sweepPositions 7 10 2 0 = [0, 2, 4, 6, 8, 10] ∧
    (measureLoop 7 false false (fun _ => 0) 0 10 2 0).1 =
      [MeasEvent.freqQuery 0, MeasEvent.freqQuery 2, MeasEvent.freqQuery 4,
       MeasEvent.freqQuery 6, MeasEvent.freqQuery 8, MeasEvent.freqQuery 10] :=
  ⟨C4_six_positions.1, by norm_num,
   (C4_six_positions.2 7 (by norm_num)).1,
   (C4_six_positions.2 7 (by norm_num)).2 (fun _ => 0)⟩

/-- C5: with checkmode enabled (and resonance-curve capture off), every
visited position p first queries the resonance frequency at the fixed
reference position and then at p, and the emitted row is position, target
frequency, reference frequency, difference, in that column order. -/
theorem C5_checkmode_ref_first (fuel : Nat) (freqAt : ℚ → ℚ)
    (ref stop ss pos : ℚ) :
    measureLoop fuel true false freqAt ref stop ss pos =
      ((sweepPositions fuel stop ss pos).flatMap
         (fun p => [MeasEvent.freqQuery ref, MeasEvent.freqQuery p]),
       (sweepPositions fuel stop ss pos).map
         (fun p => [p, freqAt p, freqAt ref, freqAt p - freqAt ref])) := by
  rw [measureLoop_eq]
  simp [measureStep]

/-- C6: the averaging-cycle wait first resets the running average, then
reads the average count and sweep time back from the instrument, and then
sleeps exactly sweeptime times (count plus one) seconds; in particular
with sweep time 2 and average count 3 the sleep is 8 seconds. -/
theorem C6_measurecycles_reset_then_wait :
    (∀ st : VNAState,
        measurecycles st =
          [VNAEvent.cmd "SENSE:AVERAGE:CLEAR", VNAEvent.cmd get_avgQuery,
           VNAEvent.cmd get_sweeptimeQuery,
           VNAEvent.sleepFor (st.sweeptime * ((st.avgCount : ℚ) + 1))]
        ∧ (measurecycles st).head? = some (VNAEvent.cmd "SENSE:AVERAGE:CLEAR")
        ∧ (measurecycles st).getLast? =
            some (VNAEvent.sleepFor (st.sweeptime * ((st.avgCount : ℚ) + 1))))
    ∧ measurecycles { avgCount := 3, sweeptime := 2, center := 0, span := 0, points := 0 } =
        [VNAEvent.cmd "SENSE:AVERAGE:CLEAR", VNAEvent.cmd "SENSE:AVERAGE:COUNT?",
         VNAEvent.cmd "SENS:SWEEP:TIME?", VNAEvent.sleepFor 8] := by
  refine ⟨fun st => ⟨rfl, rfl, rfl⟩, ?_⟩
  norm_num [measurecycles, reset_avgCmds, get_avgQuery, get_sweeptimeQuery]

/-- C7 counterexample: with both StepSize and Steps configured, the run
does raise the configuration error, but its command trace already
contains the constructor's hardware commands (the whole motor and VNA
initialisation, including the front-panel lock), because the check only
runs inside measure; the error is not raised before hardware interaction. -/
theorem C7_counterexample :
    (programRun cfgBothSteps 1 (fun _ => 0)).2 = .error .runtimeError
    ∧ (programRun cfgBothSteps 1 (fun _ => 0)).1 = initEvents cfgBothSteps
    ∧ initEvents cfgBothSteps ≠ []
    ∧ HwCmd.vna "@REM" ∈ (programRun cfgBothSteps 1 (fun _ => 0)).1 := by
  refine ⟨rfl, ?_, ?_, ?_⟩
  · simp [programRun, measureEvents, stepsizeChoice, cfgBothSteps]
  · simp [initEvents, initMotorEvents, initVNAEvents, cfgBothSteps]
  · simp [programRun, measureEvents, stepsizeChoice, cfgBothSteps,
          initEvents, initMotorEvents, initVNAEvents]

/-- C7 amended: when both or neither of StepSize and Steps are supplied, a
RuntimeError is raised by measure and measure itself sends no hardware
command, but the constructor has already performed the full motor and VNA
hardware initialisation beforehand: the whole run trace equals the
initialisation commands. -/
theorem C7_config_error_after_init (cfg : Config) (fuel : Nat) (freqAt : ℚ → ℚ)
    (h : cfg.stepSize.isSome = cfg.steps.isSome) :
    (programRun cfg fuel freqAt).2 = .error .runtimeError
    ∧ (programRun cfg fuel freqAt).1 = initEvents cfg := by
  have herr : stepsizeChoice cfg = .error .runtimeError := by
    unfold stepsizeChoice
    rcases h1 : cfg.stepSize with _ | ss <;> rcases h2 : cfg.steps with _ | n
    · rfl
    · rw [h1, h2] at h; simp at h
    · rw [h1, h2] at h; simp at h
    · rfl
  exact ⟨by simp [programRun, measureEvents, herr],
         by simp [programRun, measureEvents, herr]⟩

/-- C7 amended witness: a configuration supplying neither key. -/
theorem C7_config_error_witness :
    cfgNeitherSteps.stepSize.isSome = cfgNeitherSteps.steps.isSome
    ∧ (programRun cfgNeitherSteps 0 (fun _ => 0)).2 = .error .runtimeError
    ∧ (programRun cfgNeitherSteps 0 (fun _ => 0)).1 = initEvents cfgNeitherSteps :=
  ⟨rfl, (C7_config_error_after_init cfgNeitherSteps 0 (fun _ => 0) rfl).1,
   (C7_config_error_after_init cfgNeitherSteps 0 (fun _ => 0) rfl).2⟩

/-- C8 counterexample: on the text response 69 82 10 (the line E R
newline) followed by the next response 52 50 10 (the line 4 2 newline),
the decoder returns NoData after consuming only the first byte; the
remainder of the old text line stays in the channel, so the next text
read returns 82 10 instead of the next response 52 50 10 — subsequent
text commands do misparse. -/
theorem C8_counterexample :
    read_raw [69, 82, 10, 52, 50, 10] = .ok (none, [82, 10, 52, 50, 10])
    ∧ (readLine [82, 10, 52, 50, 10]).1 = [82, 10]
    ∧ (readLine [82, 10, 52, 50, 10]).1 ≠ [52, 50, 10] :=
  ⟨rfl, rfl, by decide⟩

/-- C8 amended: on a response whose first byte is not the block marker the
decoder returns NoData having consumed exactly that one byte; the rest of
the text line is left in the channel (so a following text read sees the
tail of the old line, not the next response). -/
theorem C8_one_byte_consumed (b : Nat) (s : List Nat) (h : b ≠ 35) :
    read_raw (b :: s) = .ok (none, s) :=
  read_raw_not_marker b s h

/-- C8 amended witness. -/
theorem C8_one_byte_consumed_witness :
    (69 : Nat) ≠ 35 ∧ read_raw [69] = .ok (none, []) :=
  ⟨by decide, C8_one_byte_consumed 69 [] (by decide)⟩

/-- C9: the date-formatting function strftime used by write_raw is bound
neither by the module imports of vna.py nor as a builtin, so every
write_raw call whose block decode succeeded fails with NameError before
any line (in particular any sample row) is written; raw-curve capture can
never produce a complete output file. -/
theorem C9_write_raw_unbound_strftime :
    "strftime" ∉ vnaEnv
    ∧ ∀ (st : VNAState) (raw : List (Nat × Nat)),
        write_raw st raw = .error .nameError :=
  ⟨by decide, fun st raw => rfl⟩

/-- C10: when the trace-data response does not start with the block marker
(read_raw yields NoData), read_amp_phase raises a TypeError while
iterating instead of returning or propagating NoData; on a well-framed
binary block it returns the polar-form list (magnitude and angle of each
pair under the IEEE-754 denotation interp) together with the stream
position after the trailing line. -/
theorem C10_amp_phase_behaviour (interp : Nat → ℝ) :
    (∀ (b : Nat) (s : List Nat), b ≠ 35 →
        read_amp_phase interp (b :: s) = .error .typeError)
    ∧ ∀ (lb L k : Nat) (lenBytes payload rest : List Nat),
        parseNat? [lb] = some L → lenBytes.length = L →
        parseNat? lenBytes = some (16 * k) → payload.length = 16 * k →
        read_amp_phase interp (35 :: lb :: (lenBytes ++ (payload ++ rest))) =
          .ok ((pairsOfN k payload).map
                (fun p => (Real.sqrt (interp p.1 * interp p.1 + interp p.2 * interp p.2),
                           atan2 (interp p.2) (interp p.1))),
               (readLine rest).2) := by
  constructor
  · intro b s h
    simp [read_amp_phase, read_raw_not_marker b s h]
  · intro lb L k lenBytes payload rest hlb hlen hn hp
    simp [read_amp_phase, read_raw_block16 lb L k lenBytes payload rest hlb hlen hn hp]

/-- C10 witness: a text response raises the TypeError; a well-framed empty
block returns the (empty) polar list. -/
theorem C10_amp_phase_witness :
    (69 : Nat) ≠ 35
    ∧ read_amp_phase (fun _ => 0) [69] = .error .typeError
    ∧ parseNat? [49] = some 1
    ∧ ([48] : List Nat).length = 1
    ∧ parseNat? [48] = some (16 * 0)
    ∧ ([] : List Nat).length = 16 * 0
    ∧ read_amp_phase (fun _ => 0) (35 :: 49 :: ([48] ++ ([] ++ [10]))) =
        .ok ((pairsOfN 0 []).map
              (fun _ => (Real.sqrt ((0 : ℝ) * 0 + 0 * 0), atan2 0 0)),
             (readLine [10]).2) :=
  ⟨by decide, (C10_amp_phase_behaviour (fun _ => 0)).1 69 [] (by decide),
   by decide, by decide, by decide, by decide,
   (C10_amp_phase_behaviour (fun _ => 0)).2 49 1 0 [48] [] [10]
     (by decide) (by decide) (by decide) (by decide)⟩
